import Mathlib

/-!
Shallow embedding of the restaurant producer-consumer system
(order.py, shared_buffer.py, producer.py, consumer.py) and proofs of the
specification claims about it.

Concurrency is modelled sequentially: each buffer operation runs to
completion before the next begins, which matches the claims (they all
speak about completed operations or about a single worker's cycle).
Python `threading.Semaphore` counters are unbounded naturals; an
`acquire(timeout=...)` that finds the counter at zero and is never
signalled by another thread times out, which is modelled as the counter
being zero at the call.  Timestamps (`time.time()`) are passed in as
rational `now` arguments.  GUI notification calls have no effect on the
synchronisation state and are omitted.
-/

namespace Restaurant

/-- OrderStatus enum from order.py. -/
inductive OrderStatus
  | CREATED
  | IN_PREPARATION
  | READY
  | BEING_DELIVERED
  | DELIVERED
  deriving DecidableEq, Repr

/-- Position of a status in the forward chain
Created → Preparing → Ready → InDelivery → Delivered. -/
def statusRank : OrderStatus → Nat
  | OrderStatus.CREATED => 0
  | OrderStatus.IN_PREPARATION => 1
  | OrderStatus.READY => 2
  | OrderStatus.BEING_DELIVERED => 3
  | OrderStatus.DELIVERED => 4

/-- Order dataclass from order.py. -/
structure Order where
  order_id : Nat
  dish_name : String
  created_time : ℚ
  chef_id : Option Nat := none
  waiter_id : Option Nat := none
  status : OrderStatus := OrderStatus.CREATED
  preparation_start_time : Option ℚ := none
  preparation_end_time : Option ℚ := none
  delivery_start_time : Option ℚ := none
  delivery_end_time : Option ℚ := none
  deriving DecidableEq, Repr

/-- Order.start_preparation: sets chef_id, moves status to IN_PREPARATION. -/
def Order.start_preparation (o : Order) (chef_id : Nat) (now : ℚ) : Order :=
  { o with chef_id := some chef_id,
           status := OrderStatus.IN_PREPARATION,
           preparation_start_time := some now }

/-- Order.complete_preparation: moves status to READY. -/
def Order.complete_preparation (o : Order) (now : ℚ) : Order :=
  { o with status := OrderStatus.READY,
           preparation_end_time := some now }

/-- Order.start_delivery: sets waiter_id, moves status to BEING_DELIVERED. -/
def Order.start_delivery (o : Order) (waiter_id : Nat) (now : ℚ) : Order :=
  { o with waiter_id := some waiter_id,
           status := OrderStatus.BEING_DELIVERED,
           delivery_start_time := some now }

/-- Order.complete_delivery: moves status to DELIVERED. -/
def Order.complete_delivery (o : Order) (now : ℚ) : Order :=
  { o with status := OrderStatus.DELIVERED,
           delivery_end_time := some now }

/-- SharedBuffer state from shared_buffer.py: the deque, the two semaphore
counters, the statistics counters and the shutdown event flag. -/
structure SharedBuffer where
  capacity : Nat
  buffer : List Order
  empty_slots : Nat
  full_slots : Nat
  total_produced : Nat
  total_consumed : Nat
  shutdown_event : Bool
  deriving DecidableEq, Repr

/-- SharedBuffer.__init__(capacity): empty deque, empty = capacity, full = 0. -/
def SharedBuffer.init (capacity : Nat) : SharedBuffer :=
  { capacity := capacity, buffer := [], empty_slots := capacity, full_slots := 0,
    total_produced := 0, total_consumed := 0, shutdown_event := false }

/-- SharedBuffer.produce (shared_buffer.py lines 73-133).  Returns the new
buffer state, the order object after the call (Python mutates it in place)
and the boolean result.  The timeout path of
`empty_slots.acquire(timeout=timeout)` fires exactly when the counter is
zero, since no other thread can signal it in a completed-operation model. -/
def SharedBuffer.produce (b : SharedBuffer) (order : Order) (producer_id : Nat)
    (timeout : ℚ) (now : ℚ) : SharedBuffer × Order × Bool :=
  if b.shutdown_event then (b, order, false)
  else if b.empty_slots = 0 then
    (b, order, false)
  else
    let b1 : SharedBuffer := { b with empty_slots := b.empty_slots - 1 }
    if b1.shutdown_event then
      ({ b1 with empty_slots := b1.empty_slots + 1 }, order, false)
    else
      let order1 := order.complete_preparation now
      ({ b1 with buffer := b1.buffer ++ [order1],
                 total_produced := b1.total_produced + 1,
                 full_slots := b1.full_slots + 1 }, order1, true)

/-- SharedBuffer.consume (shared_buffer.py lines 135-198).  Pops the head of
the deque; the defensive `if not self.buffer` re-check releases the
full-slot permit back and returns None. -/
def SharedBuffer.consume (b : SharedBuffer) (consumer_id : Nat)
    (timeout : ℚ) (now : ℚ) : SharedBuffer × Option Order :=
  if b.shutdown_event then (b, none)
  else if b.full_slots = 0 then
    (b, none)
  else
    let b1 : SharedBuffer := { b with full_slots := b.full_slots - 1 }
    if b1.shutdown_event then
      ({ b1 with full_slots := b1.full_slots + 1 }, none)
    else
      match b1.buffer with
      | [] => ({ b1 with full_slots := b1.full_slots + 1 }, none)
      | o :: rest =>
        let order := o.start_delivery consumer_id now
        ({ b1 with buffer := rest,
                   total_consumed := b1.total_consumed + 1,
                   empty_slots := b1.empty_slots + 1 }, some order)

/-- The dictionary returned by SharedBuffer.get_buffer_state. -/
structure BufferStateView where
  orders : List Order
  current_size : Nat
  capacity : Nat
  occupancy_percentage : ℚ
  total_produced : Nat
  total_consumed : Nat
  empty_slots_available : Nat
  full_slots_available : Nat
  deriving DecidableEq, Repr

/-- SharedBuffer.get_buffer_state (shared_buffer.py lines 200-220). -/
def SharedBuffer.get_buffer_state (b : SharedBuffer) : BufferStateView :=
  { orders := b.buffer,
    current_size := b.buffer.length,
    capacity := b.capacity,
    occupancy_percentage := ((b.buffer.length : ℚ) / (b.capacity : ℚ)) * 100,
    total_produced := b.total_produced,
    total_consumed := b.total_consumed,
    empty_slots_available := b.capacity - b.buffer.length,
    full_slots_available := b.buffer.length }

/-- SharedBuffer.reset (shared_buffer.py lines 222-258): clears the deque,
drains both semaphores to zero, releases capacity empty-slot permits,
zeroes both counters, and finally clears the shutdown event.  The composite
effect on the state, with no operation in flight, is this record. -/
def SharedBuffer.reset (b : SharedBuffer) : SharedBuffer :=
  { capacity := b.capacity, buffer := [], empty_slots := b.capacity, full_slots := 0,
    total_produced := 0, total_consumed := 0, shutdown_event := false }

/-- SharedBuffer.shutdown (shared_buffer.py lines 260-275): sets the
shutdown event and releases 10 permits of each kind (the
`for _ in range(10)` loop); with no parked thread each release increments
the semaphore counter. -/
def SharedBuffer.shutdown (b : SharedBuffer) : SharedBuffer :=
  { b with shutdown_event := true,
           empty_slots := b.empty_slots + 10,
           full_slots := b.full_slots + 10 }

/-- SharedBuffer.is_shutdown. -/
def SharedBuffer.is_shutdown (b : SharedBuffer) : Bool :=
  b.shutdown_event

/-! ### Operation sequences on the buffer

A completed operation on the buffer is either a produce or a consume call;
a sequence of them (with no shutdown or reset in between) drives the state
from `SharedBuffer.init capacity`.  The trace also records the orders
returned by successful produce and consume calls, in completion order. -/

/-- One completed buffer operation. -/
inductive BufferOp
  | produce (order : Order) (producer_id : Nat) (timeout now : ℚ)
  | consume (consumer_id : Nat) (timeout now : ℚ)
  deriving DecidableEq, Repr

/-- Buffer state plus the history of successfully produced and consumed
orders, in completion order. -/
structure TraceState where
  buf : SharedBuffer
  produced : List Order
  consumed : List Order
  deriving DecidableEq, Repr

/-- Starting trace state over a freshly constructed buffer. -/
def TraceState.init (capacity : Nat) : TraceState :=
  { buf := SharedBuffer.init capacity, produced := [], consumed := [] }

/-- Execute one completed operation, recording its result in the trace. -/
def stepOp (s : TraceState) (op : BufferOp) : TraceState :=
  match op with
  | BufferOp.produce o pid timeout now =>
    let r := s.buf.produce o pid timeout now
    { buf := r.1,
      produced := if r.2.2 then s.produced ++ [r.2.1] else s.produced,
      consumed := s.consumed }
  | BufferOp.consume cid timeout now =>
    let r := s.buf.consume cid timeout now
    { buf := r.1,
      produced := s.produced,
      consumed := match r.2 with
                  | some o => s.consumed ++ [o]
                  | none => s.consumed }

/-- Execute a sequence of completed operations. -/
def runOps (s : TraceState) (ops : List BufferOp) : TraceState :=
  ops.foldl stepOp s

/-- The buffer invariant claimed by the spec: occupancy bounded by the
capacity, empty-slot permits plus occupancy equal to the capacity, and
full-slot permits equal to the occupancy. -/
def bufferInv (b : SharedBuffer) : Prop :=
  b.buffer.length ≤ b.capacity ∧
  b.empty_slots + b.buffer.length = b.capacity ∧
  b.full_slots = b.buffer.length

/-- Trace invariant: the buffer invariant, plus the FIFO accounting that
the ids of produced orders are exactly the ids of consumed orders followed
by the ids still sitting in the buffer. -/
def traceInv (s : TraceState) : Prop :=
  bufferInv s.buf ∧
  s.produced.map Order.order_id =
    s.consumed.map Order.order_id ++ s.buf.buffer.map Order.order_id

theorem stepOp_traceInv (s : TraceState) (op : BufferOp) (h : traceInv s) :
    traceInv (stepOp s op) := by
  obtain ⟨⟨hlen, hempty, hfull⟩, hids⟩ := h
  cases op with
  | produce o pid timeout now =>
    simp only [stepOp, SharedBuffer.produce]
    by_cases hsd : s.buf.shutdown_event
    · simp only [hsd, if_true]
      exact ⟨⟨hlen, hempty, hfull⟩, hids⟩
    · by_cases hz : s.buf.empty_slots = 0
      · simp only [hsd, hz, if_false, if_true]
        exact ⟨⟨hlen, hempty, hfull⟩, hids⟩
      · simp only [hsd, hz, if_false, Bool.false_eq_true]
        refine ⟨⟨?_, ?_, ?_⟩, ?_⟩
        · simp only [List.length_append, List.length_cons, List.length_nil]
          omega
        · simp only [List.length_append, List.length_cons, List.length_nil]
          omega
        · simp only [List.length_append, List.length_cons, List.length_nil]
          omega
        · simp [hids, List.map_append]
  | consume cid timeout now =>
    simp only [stepOp, SharedBuffer.consume]
    by_cases hsd : s.buf.shutdown_event
    · simp only [hsd, if_true]
      exact ⟨⟨hlen, hempty, hfull⟩, hids⟩
    · by_cases hz : s.buf.full_slots = 0
      · simp only [hsd, hz, if_false, if_true]
        exact ⟨⟨hlen, hempty, hfull⟩, hids⟩
      · simp only [hsd, hz, if_false, Bool.false_eq_true]
        cases hb : s.buf.buffer with
        | nil =>
          simp only [hb, List.length_nil] at hlen hempty hfull
          refine ⟨⟨?_, ?_, ?_⟩, ?_⟩
          · simp only [List.length_nil]; omega
          · simp only [List.length_nil]; omega
          · simp only [List.length_nil]; omega
          · simp only [hb, List.map_nil, List.append_nil] at hids
            simpa using hids
        | cons o rest =>
          simp only [hb, List.length_cons] at hlen hempty hfull
          simp only [hb, List.map_cons] at hids
          refine ⟨⟨?_, ?_, ?_⟩, ?_⟩
          · simp only []; omega
          · simp only []; omega
          · simp only []; omega
          · simp [hids, List.map_append, Order.start_delivery]

theorem runOps_traceInv (s : TraceState) (ops : List BufferOp) (h : traceInv s) :
    traceInv (runOps s ops) := by
  induction ops generalizing s with
  | nil => exact h
  | cons op rest ih =>
    exact ih (stepOp s op) (stepOp_traceInv s op h)

theorem traceInv_init (capacity : Nat) : traceInv (TraceState.init capacity) := by
  refine ⟨⟨?_, ?_, ?_⟩, ?_⟩ <;>
    simp [TraceState.init, SharedBuffer.init, bufferInv]

theorem stepOp_capacity (s : TraceState) (op : BufferOp) :
    (stepOp s op).buf.capacity = s.buf.capacity := by
  cases op with
  | produce o pid timeout now =>
    simp only [stepOp, SharedBuffer.produce]
    by_cases hsd : s.buf.shutdown_event <;>
      by_cases hz : s.buf.empty_slots = 0 <;>
        simp [hsd, hz]
  | consume cid timeout now =>
    simp only [stepOp, SharedBuffer.consume]
    by_cases hsd : s.buf.shutdown_event <;>
      by_cases hz : s.buf.full_slots = 0 <;>
        cases hb : s.buf.buffer <;>
          simp [hsd, hz, hb]

theorem runOps_capacity (s : TraceState) (ops : List BufferOp) :
    (runOps s ops).buf.capacity = s.buf.capacity := by
  induction ops generalizing s with
  | nil => rfl
  | cons op rest ih =>
    calc (runOps (stepOp s op) rest).buf.capacity
        = (stepOp s op).buf.capacity := ih (stepOp s op)
      _ = s.buf.capacity := stepOp_capacity s op

/-! ### Concrete orders and buffer states used by the witnesses -/

/-- A sample order. -/
def ordA : Order := { order_id := 1, dish_name := "Margherita Pizza", created_time := 0 }

/-- A sample order. -/
def ordB : Order := { order_id := 2, dish_name := "Caesar Salad", created_time := 1 }

/-- A sample order. -/
def ordC : Order := { order_id := 3, dish_name := "Grilled Salmon", created_time := 2 }

/-- A sample order. -/
def ordD : Order := { order_id := 4, dish_name := "Beef Burger", created_time := 3 }

/-- A capacity-3 buffer after three successful produce calls: full, with no
empty-slot permit left. -/
def demoBuf3 : SharedBuffer :=
  ((((SharedBuffer.init 3).produce ordA 1 5 0).1.produce ordB 1 5 1).1.produce ordC 1 5 2).1

/-- A state whose full-slot counter holds a permit although the queue is
empty: the configuration guarded against by the defensive re-check in
consume. -/
def ghostPermitBuf : SharedBuffer :=
  { capacity := 1, buffer := [], empty_slots := 0, full_slots := 1,
    total_produced := 0, total_consumed := 0, shutdown_event := false }

/-! ### Claims C1-C6 -/

/-- C1: for every sequence of completed produce/consume operations on a
buffer constructed with capacity C (no shutdown or reset in between), the
buffer invariant holds between operations: the queue length is at most C
(and at least 0, trivially in Nat), the empty-slot permit count plus the
queue length equals C, and the full-slot permit count equals the queue
length. -/
theorem produce_consume_preserve_buffer_invariant (capacity : Nat) (ops : List BufferOp) :
    (runOps (TraceState.init capacity) ops).buf.buffer.length ≤ capacity ∧
    (runOps (TraceState.init capacity) ops).buf.empty_slots +
      (runOps (TraceState.init capacity) ops).buf.buffer.length = capacity ∧
    (runOps (TraceState.init capacity) ops).buf.full_slots =
      (runOps (TraceState.init capacity) ops).buf.buffer.length := by
  have h := runOps_traceInv (TraceState.init capacity) ops (traceInv_init capacity)
  have hc : (runOps (TraceState.init capacity) ops).buf.capacity = capacity :=
    runOps_capacity (TraceState.init capacity) ops
  obtain ⟨⟨h1, h2, h3⟩, _⟩ := h
  refine ⟨?_, ?_, h3⟩ <;> omega

/-- C2: the buffer is FIFO.  Along every sequence of completed operations
from a fresh buffer, the ids of successfully produced orders equal the ids
of consumed orders followed by the ids still in the queue (produce appends
at the tail, consume pops the head), so the consumed ids always form a
prefix of the produced ids: any order produced earlier is consumed no
later than one produced after it. -/
theorem fifo_consumed_ids_are_produced_ids_in_order (capacity : Nat) (ops : List BufferOp) :
    (runOps (TraceState.init capacity) ops).produced.map Order.order_id =
      (runOps (TraceState.init capacity) ops).consumed.map Order.order_id ++
        (runOps (TraceState.init capacity) ops).buf.buffer.map Order.order_id ∧
    ∃ rest, (runOps (TraceState.init capacity) ops).produced.map Order.order_id =
      (runOps (TraceState.init capacity) ops).consumed.map Order.order_id ++ rest := by
  have h := runOps_traceInv (TraceState.init capacity) ops (traceInv_init capacity)
  exact ⟨h.2, ⟨(runOps (TraceState.init capacity) ops).buf.buffer.map Order.order_id, h.2⟩⟩

/-- C3: produce on a buffer that is full for the whole timeout (no
empty-slot permit available, no shutdown) returns False and leaves the
entire buffer state, and the order object, unchanged. -/
theorem produce_on_full_buffer_returns_false_unchanged
    (b : SharedBuffer) (o : Order) (pid : Nat) (timeout now : ℚ)
    (hsd : b.shutdown_event = false) (hfull : b.empty_slots = 0) :
    b.produce o pid timeout now = (b, o, false) := by
  simp [SharedBuffer.produce, hsd, hfull]

/-- C3 witness: with capacity 3 and no consumers, the three produce calls
building demoBuf3 all succeed, the buffer is then full, and the 4th
produce returns False leaving state and order unchanged. -/
theorem produce_on_full_buffer_returns_false_unchanged_witness :
    (((SharedBuffer.init 3).produce ordA 1 5 0).2.2 = true ∧
      (((SharedBuffer.init 3).produce ordA 1 5 0).1.produce ordB 1 5 1).2.2 = true ∧
      ((((SharedBuffer.init 3).produce ordA 1 5 0).1.produce ordB 1 5 1).1.produce ordC 1 5 2).2.2 = true) ∧
    demoBuf3.shutdown_event = false ∧ demoBuf3.empty_slots = 0 ∧
    demoBuf3.produce ordD 1 5 3 = (demoBuf3, ordD, false) :=
  ⟨⟨by decide, by decide, by decide⟩, by decide, by decide,
    produce_on_full_buffer_returns_false_unchanged demoBuf3 ordD 1 5 3 (by decide) (by decide)⟩

/-- C4 counterexample: on ghostPermitBuf (full-slot permit held, queue
empty, no shutdown), consume takes the defensive branch; the code
re-releases the full-slot permit (the state comes back unchanged, the
counter stays at 1), refuting the claim that the permit is not re-released
(which would leave the counter at full_slots - 1 = 0). -/
theorem consume_empty_recheck_rereleases_permit :
    ghostPermitBuf.consume 7 5 0 = (ghostPermitBuf, none) ∧
    ¬ (ghostPermitBuf.consume 7 5 0).1.full_slots = ghostPermitBuf.full_slots - 1 := by
  decide

/-- C4 amended: if a full-slot permit is acquired but the queue is found
empty by the post-acquisition re-check, the permit IS re-released
(restoring the counter), and the call returns None with the whole state
unchanged (and no log is emitted in this branch of the code). -/
theorem consume_empty_recheck_returns_none_state_unchanged
    (b : SharedBuffer) (cid : Nat) (timeout now : ℚ)
    (hsd : b.shutdown_event = false) (hnz : b.full_slots ≠ 0) (hemp : b.buffer = []) :
    b.consume cid timeout now = (b, none) := by
  simp only [SharedBuffer.consume, hsd, Bool.false_eq_true, if_false, hnz, if_neg, hemp]
  have h : b.full_slots - 1 + 1 = b.full_slots :=
    Nat.succ_pred_eq_of_pos (Nat.pos_of_ne_zero hnz)
  rw [h, ← hsd, ← hemp]

/-- C4 amended witness: the defensive branch at the concrete state
ghostPermitBuf. -/
theorem consume_empty_recheck_returns_none_state_unchanged_witness :
    ghostPermitBuf.shutdown_event = false ∧ ghostPermitBuf.full_slots ≠ 0 ∧
    ghostPermitBuf.buffer = [] ∧ ghostPermitBuf.consume 7 5 0 = (ghostPermitBuf, none) :=
  ⟨by decide, by decide, by decide,
    consume_empty_recheck_returns_none_state_unchanged ghostPermitBuf 7 5 0
      (by decide) (by decide) (by decide)⟩

/-- C5 counterexample: shutdown is not idempotent on the state: a second
call releases 10 further permits of each kind, so the state after two
calls differs from the state after one (empty_slots 22 vs 12 here). -/
theorem shutdown_not_state_idempotent :
    (SharedBuffer.init 2).shutdown.shutdown ≠ (SharedBuffer.init 2).shutdown := by
  decide

/-- C5 amended: after the shutdown flag is set, every produce or consume
call returns failure (False / None) immediately with the state unchanged;
shutdown leaves the queue, the counters and the flag unchanged while
adding 10 permits of each kind, so a second shutdown call (applied to an
already-shut-down state) changes only the permit counts, not the queue,
counters or flag.  (The flag is also re-checked in the code after permit
acquisition, before any mutation.) -/
theorem shutdown_rejects_operations_and_only_adds_permits
    (b : SharedBuffer) (o : Order) (pid cid : Nat) (timeout now : ℚ)
    (h : b.shutdown_event = true) :
    b.produce o pid timeout now = (b, o, false) ∧
    b.consume cid timeout now = (b, none) ∧
    b.shutdown.buffer = b.buffer ∧
    b.shutdown.total_produced = b.total_produced ∧
    b.shutdown.total_consumed = b.total_consumed ∧
    b.shutdown.shutdown_event = true ∧
    b.shutdown.empty_slots = b.empty_slots + 10 ∧
    b.shutdown.full_slots = b.full_slots + 10 := by
  simp [SharedBuffer.produce, SharedBuffer.consume, SharedBuffer.shutdown, h]

/-- C5 amended witness: instantiated at the capacity-2 buffer after one
shutdown call, whose flag is set. -/
theorem shutdown_rejects_operations_and_only_adds_permits_witness :
    (SharedBuffer.init 2).shutdown.shutdown_event = true ∧
    (SharedBuffer.init 2).shutdown.produce ordA 1 5 0 = ((SharedBuffer.init 2).shutdown, ordA, false) ∧
    (SharedBuffer.init 2).shutdown.consume 1 5 0 = ((SharedBuffer.init 2).shutdown, none) ∧
    (SharedBuffer.init 2).shutdown.shutdown.empty_slots = (SharedBuffer.init 2).shutdown.empty_slots + 10 :=
  ⟨by decide,
    (shutdown_rejects_operations_and_only_adds_permits
      (SharedBuffer.init 2).shutdown ordA 1 1 5 0 (by decide)).1,
    (shutdown_rejects_operations_and_only_adds_permits
      (SharedBuffer.init 2).shutdown ordA 1 1 5 0 (by decide)).2.1,
    (shutdown_rejects_operations_and_only_adds_permits
      (SharedBuffer.init 2).shutdown ordA 1 1 5 0 (by decide)).2.2.2.2.2.2.1⟩

/-- Run a list of produce calls in sequence and report whether every one
of them succeeded (producer id 1, timeout 5, timestamp 0 throughout; those
arguments do not influence the success of produce). -/
def produceAllOk : SharedBuffer → List Order → Bool
  | _, [] => true
  | b, o :: rest =>
    let r := b.produce o 1 5 0
    r.2.2 && produceAllOk r.1 rest

theorem produceAllOk_of_le (b : SharedBuffer) (os : List Order)
    (hsd : b.shutdown_event = false) (hlen : os.length ≤ b.empty_slots) :
    produceAllOk b os = true := by
  induction os generalizing b with
  | nil => rfl
  | cons o rest ih =>
    have hz : ¬ b.empty_slots = 0 := by
      simp only [List.length_cons] at hlen
      omega
    simp only [produceAllOk, SharedBuffer.produce, hsd, Bool.false_eq_true, if_false, hz,
      Bool.and_eq_true, true_and]
    refine ih _ rfl ?_
    simp only [List.length_cons] at hlen
    simp only []
    omega

/-- C6: after reset the queue is empty, the empty-slot permit count equals
the capacity, the full-slot permit count is 0, both counters are 0 (also
as reported by get_buffer_state), and any sequence of up to capacity
produce calls issued next all succeed without blocking. -/
theorem reset_restores_initial_state (b : SharedBuffer) (os : List Order)
    (hlen : os.length ≤ b.capacity) :
    b.reset.buffer = [] ∧
    b.reset.empty_slots = b.capacity ∧
    b.reset.full_slots = 0 ∧
    b.reset.total_produced = 0 ∧
    b.reset.total_consumed = 0 ∧
    b.reset.get_buffer_state.total_produced = 0 ∧
    b.reset.get_buffer_state.total_consumed = 0 ∧
    b.reset.get_buffer_state.current_size = 0 ∧
    produceAllOk b.reset os = true := by
  refine ⟨rfl, rfl, rfl, rfl, rfl, rfl, rfl, rfl, ?_⟩
  exact produceAllOk_of_le b.reset os rfl hlen

/-- C6 witness: resetting the used, full capacity-3 buffer restores the
initial state, and three produce calls then all succeed. -/
theorem reset_restores_initial_state_witness :
    [ordA, ordB, ordC].length ≤ demoBuf3.capacity ∧
    demoBuf3.reset.buffer = [] ∧
    demoBuf3.reset.empty_slots = demoBuf3.capacity ∧
    produceAllOk demoBuf3.reset [ordA, ordB, ordC] = true :=
  ⟨by decide,
    (reset_restores_initial_state demoBuf3 [ordA, ordB, ordC] (by decide)).1,
    (reset_restores_initial_state demoBuf3 [ordA, ordB, ordC] (by decide)).2.1,
    (reset_restores_initial_state demoBuf3 [ordA, ordB, ordC] (by decide)).2.2.2.2.2.2.2.2⟩

/-! ### Worker (producer / consumer) model from producer.py and consumer.py -/

/-- ThreadState enum from producer.py. -/
inductive ThreadState
  | IDLE
  | RUNNING
  | WAITING
  | BLOCKED
  | PAUSED
  | TERMINATED
  deriving DecidableEq, Repr

/-- ChefThread state from producer.py: the two control events (a Python
Event is a boolean flag: pause_event true = gate open, stop_event true =
stop requested), the reported thread state, the statistics, the current
order slot, the class-level order-id counter and the speed multiplier. -/
structure ChefThread where
  chef_id : Nat
  chef_name : String
  pause_event : Bool := true
  stop_event : Bool := false
  current_state : ThreadState := ThreadState.IDLE
  orders_produced : Nat := 0
  orders_blocked : Nat := 0
  current_order : Option Order := none
  order_counter : Nat := 0
  speed_multiplier : ℚ := 1
  deriving DecidableEq, Repr

/-- ChefThread._create_order (producer.py lines 155-178): increments the
order counter and builds a fresh Order with the new id. -/
def ChefThread.create_order (c : ChefThread) (dish : String) (now : ℚ) :
    ChefThread × Order :=
  let n := c.order_counter + 1
  ({ c with order_counter := n },
   { order_id := n, dish_name := dish, created_time := now })

/-- ChefThread._prepare_order (producer.py lines 180-205): starts
preparation on the order and reports the RUNNING state (the simulated
sleep has no effect on this state). -/
def ChefThread.prepare_order (c : ChefThread) (o : Order) (now : ℚ) :
    ChefThread × Order :=
  ({ c with current_state := ThreadState.RUNNING },
   o.start_preparation c.chef_id now)

/-- ChefThread._place_order (producer.py lines 207-233): reports the
BLOCKED state, then calls produce with timeout 2.0. -/
def ChefThread.place_order (c : ChefThread) (b : SharedBuffer) (o : Order) (now : ℚ) :
    ChefThread × SharedBuffer × Order × Bool :=
  ({ c with current_state := ThreadState.BLOCKED }, b.produce o c.chef_id 2 now)

/-- Result of one producer cycle: the worker, the buffer, the order the
cycle attempted to place (after any in-place mutation) and the produce
result. -/
structure CycleResult where
  chef : ChefThread
  buf : SharedBuffer
  order : Order
  ok : Bool
  deriving DecidableEq, Repr

/-- One iteration of the ChefThread.run loop body (producer.py lines
121-147), from order creation to the bookkeeping after _place_order
(pause/stop were already checked at the top of the loop; the inter-cycle
sleep does not change this state). -/
def ChefThread.cycle (c : ChefThread) (b : SharedBuffer) (dish : String) (now : ℚ) :
    CycleResult :=
  let r0 := c.create_order dish now
  let c1 := { r0.1 with current_order := some r0.2 }
  let r1 := c1.prepare_order r0.2 now
  let c2 := { r1.1 with current_order := some r1.2 }
  let c3 := { c2 with current_state := ThreadState.WAITING }
  let r2 := c3.place_order b r1.2 now
  let c4 := r2.1
  if r2.2.2.2 then
    { chef := { c4 with orders_produced := c4.orders_produced + 1,
                        current_state := ThreadState.RUNNING,
                        current_order := none },
      buf := r2.2.1, order := r2.2.2.1, ok := true }
  else
    { chef := { c4 with orders_blocked := c4.orders_blocked + 1,
                        current_order := none },
      buf := r2.2.1, order := r2.2.2.1, ok := false }

/-- ChefThread.pause: clears the pause event (closes the gate). -/
def ChefThread.pause (c : ChefThread) : ChefThread :=
  { c with pause_event := false }

/-- ChefThread.resume: sets the pause event (reopens the gate). -/
def ChefThread.resume (c : ChefThread) : ChefThread :=
  { c with pause_event := true }

/-- ChefThread.stop (producer.py lines 245-249): sets the stop event and
then sets the pause event so the thread is not parked on the gate. -/
def ChefThread.stop (c : ChefThread) : ChefThread :=
  { c with stop_event := true, pause_event := true }

/-- What a worker parked in pause_event.wait() does once the gate is open
(producer.py lines 116-119 together with the finally block at lines
151-153): if the stop event is set it breaks out of the loop and the
finally block reports TERMINATED; otherwise it reports RUNNING and
continues with the next cycle.  The boolean records whether another cycle
is executed. -/
def ChefThread.wake_from_pause (c : ChefThread) : ChefThread × Bool :=
  if c.stop_event then
    ({ c with current_state := ThreadState.TERMINATED }, false)
  else
    ({ c with current_state := ThreadState.RUNNING }, true)

/-- ChefThread.set_speed (producer.py lines 251-258): stores the clamped
multiplier max(0.1, min(5.0, x)). -/
def ChefThread.set_speed (c : ChefThread) (speed_multiplier : ℚ) : ChefThread :=
  { c with speed_multiplier := max 0.1 (min 5.0 speed_multiplier) }

/-- WaiterThread state from consumer.py (the fields the claims touch). -/
structure WaiterThread where
  waiter_id : Nat
  waiter_name : String
  pause_event : Bool := true
  stop_event : Bool := false
  current_state : ThreadState := ThreadState.IDLE
  speed_multiplier : ℚ := 1
  deriving DecidableEq, Repr

/-- WaiterThread.set_speed (consumer.py lines 226-233): identical clamping
to the chef's. -/
def WaiterThread.set_speed (w : WaiterThread) (speed_multiplier : ℚ) : WaiterThread :=
  { w with speed_multiplier := max 0.1 (min 5.0 speed_multiplier) }

/-- The scaled sleep duration computed by _sleep_scaled (producer.py line
326 and consumer.py): the base duration divided by the speed multiplier. -/
def scaled_duration (duration speed_multiplier : ℚ) : ℚ :=
  duration / speed_multiplier

/-- A chef about to run its first cycle. -/
def chefMario : ChefThread :=
  { chef_id := 1, chef_name := "Mario", current_state := ThreadState.RUNNING }

/-- A capacity-1 buffer holding one order: full, so produce times out. -/
def demoBuf1 : SharedBuffer := ((SharedBuffer.init 1).produce ordA 9 5 0).1

/-- A chef parked on the pause gate. -/
def pausedChef : ChefThread :=
  { chef_id := 2, chef_name := "Luigi", pause_event := false,
    current_state := ThreadState.PAUSED }

/-- A waiter with the default speed multiplier. -/
def waiterGina : WaiterThread := { waiter_id := 1, waiter_name := "Gina" }

/-! ### Claims C7-C10 -/

/-- C7 counterexample: with the buffer full, the chef's put times out, but
the timed-out order IS discarded: current_order is cleared and the next
cycle attempts a brand-new order with a fresh id (order 2, not order 1),
refuting the claim that the producer retries placing the same order. -/
theorem producer_timeout_discards_order_counterexample :
    (chefMario.cycle demoBuf1 "Pizza" 0).ok = false ∧
    (chefMario.cycle demoBuf1 "Pizza" 0).chef.current_order = none ∧
    (chefMario.cycle demoBuf1 "Pizza" 0).order.order_id = 1 ∧
    ((chefMario.cycle demoBuf1 "Pizza" 0).chef.cycle
        (chefMario.cycle demoBuf1 "Pizza" 0).buf "Pizza" 1).order.order_id = 2 := by
  decide

/-- C7 amended: in every producer cycle where the put call times out (the
buffer stays full and is not shut down), the producer is in the Blocked
state (entered before the put call), increments its blocked count, leaves
its produced count and the buffer unchanged, and discards the timed-out
order: current_order is cleared and the next cycle creates a new order
with the next fresh id instead of retrying the old one. -/
theorem producer_timeout_blocks_and_discards_order
    (c : ChefThread) (b : SharedBuffer) (dish : String) (now : ℚ)
    (hsd : b.shutdown_event = false) (hfull : b.empty_slots = 0) :
    (c.cycle b dish now).ok = false ∧
    (c.cycle b dish now).chef.current_state = ThreadState.BLOCKED ∧
    (c.cycle b dish now).chef.orders_blocked = c.orders_blocked + 1 ∧
    (c.cycle b dish now).chef.orders_produced = c.orders_produced ∧
    (c.cycle b dish now).chef.current_order = none ∧
    (c.cycle b dish now).buf = b ∧
    (c.cycle b dish now).order.order_id = c.order_counter + 1 ∧
    ((c.cycle b dish now).chef.cycle (c.cycle b dish now).buf dish now).order.order_id =
      c.order_counter + 2 := by
  simp [ChefThread.cycle, ChefThread.create_order, ChefThread.prepare_order,
    ChefThread.place_order, SharedBuffer.produce, Order.start_preparation, hsd, hfull]

/-- C7 amended witness: the concrete full capacity-1 buffer and a fresh
chef. -/
theorem producer_timeout_blocks_and_discards_order_witness :
    demoBuf1.shutdown_event = false ∧ demoBuf1.empty_slots = 0 ∧
    (chefMario.cycle demoBuf1 "Pizza" 0).ok = false ∧
    (chefMario.cycle demoBuf1 "Pizza" 0).chef.orders_blocked = chefMario.orders_blocked + 1 :=
  ⟨by decide, by decide,
    (producer_timeout_blocks_and_discards_order chefMario demoBuf1 "Pizza" 0
      (by decide) (by decide)).1,
    (producer_timeout_blocks_and_discards_order chefMario demoBuf1 "Pizza" 0
      (by decide) (by decide)).2.2.1⟩

/-- C8: if stop() is called while a worker is parked on the pause gate in
the Paused state, the gate is reopened (pause_event true, so the worker is
not stuck), and on waking the worker observes the stop flag and reports
TERMINATED without executing another cycle (the boolean false). -/
theorem stop_while_paused_terminates_without_new_cycle
    (c : ChefThread) (h : c.current_state = ThreadState.PAUSED) :
    c.stop.pause_event = true ∧
    c.stop.wake_from_pause =
      ({ c.stop with current_state := ThreadState.TERMINATED }, false) := by
  refine ⟨rfl, ?_⟩
  simp [ChefThread.wake_from_pause, ChefThread.stop]

/-- C8 witness: the concrete paused chef. -/
theorem stop_while_paused_terminates_without_new_cycle_witness :
    pausedChef.current_state = ThreadState.PAUSED ∧
    pausedChef.stop.pause_event = true ∧
    pausedChef.stop.wake_from_pause =
      ({ pausedChef.stop with current_state := ThreadState.TERMINATED }, false) :=
  ⟨by decide,
    (stop_while_paused_terminates_without_new_cycle pausedChef (by decide)).1,
    (stop_while_paused_terminates_without_new_cycle pausedChef (by decide)).2⟩

/-- C9 counterexample: the Order methods set the status unconditionally,
so a sequence of operations can move the status backward: calling
start_preparation after start_delivery takes the status from
BEING_DELIVERED (rank 3) back to IN_PREPARATION (rank 1); and calling
start_delivery twice reassigns waiter_id, so it is not set exactly once. -/
theorem order_status_can_move_backward_counterexample :
    statusRank (ordA.start_delivery 1 1).status = 3 ∧
    statusRank ((ordA.start_delivery 1 1).start_preparation 2 2).status = 1 ∧
    statusRank ((ordA.start_delivery 1 1).start_preparation 2 2).status <
      statusRank (ordA.start_delivery 1 1).status ∧
    ((ordA.start_delivery 1 1).start_delivery 2 2).waiter_id ≠
      (ordA.start_delivery 1 1).waiter_id := by
  decide

/-- C9 amended: in the canonical lifecycle in which each status operation
is applied once in the order start_preparation, complete_preparation,
start_delivery, complete_delivery (as the chef, buffer and waiter code
drives it), a fresh order's status moves strictly forward through
Created → Preparing → Ready → InDelivery → Delivered, and waiter_id,
initially none, is assigned exactly at the start_delivery step (the
transition to InDelivery) and kept thereafter. -/
theorem order_lifecycle_forward_in_canonical_sequence
    (o : Order) (c w : Nat) (t1 t2 t3 t4 : ℚ)
    (h1 : o.status = OrderStatus.CREATED) (h2 : o.waiter_id = none) :
    statusRank o.status < statusRank (o.start_preparation c t1).status ∧
    statusRank (o.start_preparation c t1).status <
      statusRank ((o.start_preparation c t1).complete_preparation t2).status ∧
    statusRank ((o.start_preparation c t1).complete_preparation t2).status <
      statusRank (((o.start_preparation c t1).complete_preparation t2).start_delivery w t3).status ∧
    statusRank (((o.start_preparation c t1).complete_preparation t2).start_delivery w t3).status <
      statusRank ((((o.start_preparation c t1).complete_preparation t2).start_delivery w t3).complete_delivery t4).status ∧
    (o.start_preparation c t1).waiter_id = none ∧
    ((o.start_preparation c t1).complete_preparation t2).waiter_id = none ∧
    (((o.start_preparation c t1).complete_preparation t2).start_delivery w t3).waiter_id = some w ∧
    ((((o.start_preparation c t1).complete_preparation t2).start_delivery w t3).complete_delivery t4).waiter_id = some w := by
  simp [Order.start_preparation, Order.complete_preparation, Order.start_delivery,
    Order.complete_delivery, statusRank, h1, h2]

/-- C9 amended witness: the canonical lifecycle of the concrete fresh
order ordA. -/
theorem order_lifecycle_forward_in_canonical_sequence_witness :
    ordA.status = OrderStatus.CREATED ∧ ordA.waiter_id = none ∧
    ((ordA.start_preparation 1 1).complete_preparation 2).waiter_id = none ∧
    (((ordA.start_preparation 1 1).complete_preparation 2).start_delivery 4 3).waiter_id = some 4 :=
  ⟨by decide, by decide,
    (order_lifecycle_forward_in_canonical_sequence ordA 1 4 1 2 3 4
      (by decide) (by decide)).2.2.2.2.2.1,
    (order_lifecycle_forward_in_canonical_sequence ordA 1 4 1 2 3 4
      (by decide) (by decide)).2.2.2.2.2.2.1⟩

/-- C10: set_speed stores the clamped value max(0.1, min(5.0, x)) on both
worker kinds, so the stored multiplier always lies in [0.1, 5.0], and the
scaled sleep duration duration/multiplier is well defined and positive for
every positive base duration. -/
theorem set_speed_clamps_multiplier
    (c : ChefThread) (w : WaiterThread) (x d : ℚ) (hd : 0 < d) :
    (c.set_speed x).speed_multiplier = max 0.1 (min 5.0 x) ∧
    (w.set_speed x).speed_multiplier = max 0.1 (min 5.0 x) ∧
    0.1 ≤ (c.set_speed x).speed_multiplier ∧
    (c.set_speed x).speed_multiplier ≤ 5.0 ∧
    0 < scaled_duration d (c.set_speed x).speed_multiplier := by
  refine ⟨rfl, rfl, le_max_left _ _, max_le (by norm_num) (min_le_left _ _), ?_⟩
  have hpos : (0 : ℚ) < (c.set_speed x).speed_multiplier :=
    lt_of_lt_of_le (by norm_num) (le_max_left 0.1 (min 5.0 x))
  exact div_pos hd hpos

/-- C10 witness: setting speed 7 clamps to 5, and a base delay of 1 second
scales to the positive 1/5. -/
theorem set_speed_clamps_multiplier_witness :
    (0 : ℚ) < 1 ∧
    (chefMario.set_speed 7).speed_multiplier = max 0.1 (min 5.0 7) ∧
    (waiterGina.set_speed 7).speed_multiplier = max 0.1 (min 5.0 7) ∧
    0 < scaled_duration 1 (chefMario.set_speed 7).speed_multiplier :=
  ⟨by norm_num,
    (set_speed_clamps_multiplier chefMario waiterGina 7 1 (by norm_num)).1,
    (set_speed_clamps_multiplier chefMario waiterGina 7 1 (by norm_num)).2.1,
    (set_speed_clamps_multiplier chefMario waiterGina 7 1 (by norm_num)).2.2.2.2⟩

end Restaurant
